import Mathlib

/-!
Shallow embedding of the order-intake backend in `src/server.js`
(Jay's Frames holiday poster shop): product catalog, checkout initiation,
Stripe webhook handling (order materialization), admin status updates, and
best-effort email notification.

JavaScript values are modelled as follows: JSON strings as `String`, JSON
numbers appearing as integers as `Int`, possibly-absent values as `Option`,
JS truthiness of a string as "present and nonempty", JS truthiness of a
number as "present and nonzero".  The flat-file datastore `db.data` is the
`DB` structure, threaded explicitly.  Clock reads (`new Date().toISOString()`)
are a `now : String` parameter.  The mail transport is modelled by a
`mailOk : Bool` oracle: each attempted send is recorded in an outbox list
together with the oracle's outcome, mirroring that `transporter.sendMail` is
always attempted and its failure caught (server.js lines 332-337, 376-380,
413-417).
-/

/-- Catalog entry, one value of the `PRODUCTS` object (server.js lines 70-74). -/
structure Product where
  price : Int
  name : String
  shippingRequired : Bool
deriving DecidableEq

/-- The result of a JS property read `obj[key]` on a plain object literal:
an own property carrying the configured record, a truthy value inherited
from `Object.prototype` (a function such as `toString`, or the `__proto__`
object), or `undefined`. -/
inductive JSProp (α : Type) where
  | own (a : α)
  | inherited
  | undefined
deriving DecidableEq

/-- JS truthiness of a property read: own records and inherited prototype
members (functions, objects) are truthy; only `undefined` is falsy. -/
def JSProp.truthy : JSProp α → Bool
  | .undefined => false
  | _ => true

/-- The own property names of `Object.prototype`, inherited by every plain
object literal: a read of any of these keys on `PRODUCTS` or `VIBES` yields
a truthy value, not `undefined`. -/
def objectPrototypeKeys : List String :=
  ["constructor", "hasOwnProperty", "isPrototypeOf", "propertyIsEnumerable",
   "toLocaleString", "toString", "valueOf", "__defineGetter__",
   "__defineSetter__", "__lookupGetter__", "__lookupSetter__", "__proto__"]

/-- The `PRODUCTS` map (server.js lines 70-74).  A JS property access
`PRODUCTS[tier]` yields the configured record for the three own keys, an
inherited truthy value for the `Object.prototype` property names, and
`undefined` for every other key. -/
def PRODUCTS (tier : String) : JSProp Product :=
  if tier = "digital" then .own ⟨7900, "Digital Only", false⟩
  else if tier = "print" then .own ⟨18900, "Fine-Art Print", true⟩
  else if tier = "framed" then .own ⟨39900, "Framed Edition", true⟩
  else if tier ∈ objectPrototypeKeys then .inherited
  else .undefined

/-- The `VIBES` map from theme code to display name (server.js lines 76-80),
with the same prototype-chain behaviour as `PRODUCTS`. -/
def VIBES (vibe : String) : JSProp String :=
  if vibe = "homeAlone" then .own "Home Alone"
  else if vibe = "elf" then .own "Elf"
  else if vibe = "vacation" then .own "Christmas Vacation"
  else if vibe ∈ objectPrototypeKeys then .inherited
  else .undefined

/-- An order record as pushed onto `db.data.orders` (server.js lines 206-223).
`quantity` is the result of `parseInt` on the metadata string (`none` = NaN);
`status` is `Option String` because the PATCH handler copies `req.body.status`
verbatim, which may be `undefined` (server.js line 285). -/
structure Order where
  id : String
  stripeSessionId : String
  stripePaymentIntent : String
  vibe : String
  tier : String
  quantity : Option Int
  uploadId : String
  customerName : String
  customerEmail : String
  customerPhone : String
  shippingAddress : String
  notes : String
  amount : Int
  status : Option String
  createdAt : String
  updatedAt : String
deriving DecidableEq

/-- An upload record as pushed onto `db.data.uploads` (server.js lines 91-98). -/
structure UploadRecord where
  id : String
  filename : String
  originalName : String
  path : String
  size : Int
  uploadedAt : String
deriving DecidableEq

/-- The persisted state `db.data` (server.js line 27). -/
structure DB where
  orders : List Order
  uploads : List UploadRecord
deriving DecidableEq

/-- An HTTP response: status code plus a rendering of the body. -/
structure Response where
  status : Nat
  body : String
deriving DecidableEq

/-- One attempted email send, tagged by which template function produced it
(server.js lines 300, 339, 383); `sent` records whether the transport
succeeded (a failure is caught and only logged). -/
inductive Email where
  | orderConfirmation (o : Order) (sent : Bool)
  | internalNotification (o : Order) (sent : Bool)
  | statusUpdate (o : Order) (sent : Bool)
deriving DecidableEq

/-- Is this email the customer-facing order confirmation? -/
def Email.isCustomerConfirmation : Email → Bool
  | .orderConfirmation _ _ => true
  | _ => false

/-! ## Number formatting and parsing

The checkout handler stores `quantity.toString()` in the session metadata
(server.js line 170) and the webhook handler recovers it with
`parseInt(session.metadata.quantity)` (server.js line 212).  We model the
two JS primitives directly. -/

/-- Decimal digits, most significant first, with explicit fuel (the fuel is
structural so that concrete values compute by kernel reduction; any fuel
above the value itself suffices). -/
def natToDigitCharsAux : Nat → Nat → List Char
  | 0, _ => []
  | fuel + 1, n =>
    if n < 10 then [Char.ofNat (48 + n)]
    else natToDigitCharsAux fuel (n / 10) ++ [Char.ofNat (48 + n % 10)]

/-- Decimal digits of a natural number, most significant first, as JS
`Number.prototype.toString()` renders a nonnegative integer. -/
def natToDigitChars (n : Nat) : List Char := natToDigitCharsAux (n + 1) n

/-- Model of JS `Number.prototype.toString()` on an integer value. -/
def intToStringJS (q : Int) : String :=
  if q < 0 then "-" ++ ⟨natToDigitChars q.natAbs⟩ else ⟨natToDigitChars q.natAbs⟩

/-- Numeric value of a digit character. -/
def digitVal (c : Char) : Nat := c.toNat - 48

/-- Fold the leading decimal digits of a character list into a number;
`none` when there is no leading digit (JS `NaN`). -/
def parseLeadingDigits (cs : List Char) : Option Nat :=
  let ds := cs.takeWhile Char.isDigit
  if ds.isEmpty then none else some (ds.foldl (fun a c => a * 10 + digitVal c) 0)

/-- Model of JS `parseInt` on base-10 input: optional sign, then leading
digits; `none` models `NaN`. -/
def parseIntJS (s : String) : Option Int :=
  match s.data with
  | [] => none
  | c :: rest =>
    if c = '-' then (parseLeadingDigits rest).map (fun n => -(Int.ofNat n))
    else if c = '+' then (parseLeadingDigits rest).map Int.ofNat
    else (parseLeadingDigits (c :: rest)).map Int.ofNat

/-! ## Checkout initiation (server.js lines 116-184) -/

/-- The request body of `POST /api/create-checkout` (server.js lines 118-128);
every field may be absent. -/
structure CheckoutBody where
  vibe : Option String
  tier : Option String
  quantity : Option Int
  uploadId : Option String
  customerName : Option String
  customerEmail : Option String
  customerPhone : Option String
  shippingAddress : Option String
  notes : Option String
deriving DecidableEq

/-- JS truthiness of a possibly-absent string: present and nonempty. -/
def truthyS : Option String → Bool
  | none => false
  | some s => !(s == "")

/-- JS truthiness of a possibly-absent number: present and nonzero. -/
def truthyI : Option Int → Bool
  | none => false
  | some q => !(q == 0)

/-- The required-fields check of server.js line 131: every listed field must
be truthy. -/
def requiredPresent (body : CheckoutBody) : Bool :=
  truthyS body.vibe && truthyS body.tier && truthyI body.quantity &&
  truthyS body.uploadId && truthyS body.customerName && truthyS body.customerEmail

/-- The metadata map attached to the Stripe session (server.js lines 166-176). -/
structure SessionMetadata where
  orderId : String
  vibe : String
  tier : String
  quantity : String
  uploadId : String
  customerName : String
  customerPhone : String
  shippingAddress : String
  notes : String
deriving DecidableEq

/-- The checkout session opened with the processor (server.js lines 147-177):
the line item's unit amount and quantity, the customer email, and the
metadata map. -/
structure CreatedSession where
  id : String
  unit_amount : Int
  quantity : Int
  customer_email : String
  metadata : SessionMetadata
deriving DecidableEq

/-- `totalAmount = product.price * quantity` (server.js lines 143-144).
`none` models a non-number: for an inherited prototype member
`product.price` is `undefined` and the product is `NaN`; for `undefined`
the read of `.price` throws. -/
def checkoutTotalAmount (tier : String) (quantity : Int) : Option Int :=
  match PRODUCTS tier with
  | .own product => some (product.price * quantity)
  | _ => none

/-- The `POST /api/create-checkout` handler (server.js lines 116-184).
`freshOrderId` is the `uuidv4()` of line 167, `sessionId` the id the
processor assigns, `stripeOk` whether the processor call succeeds (a throw
is caught at lines 180-183).  Returns the session opened with the
processor, if any, and the HTTP response.  A tier that is truthy without
being an own catalog key (an `Object.prototype` property name) reaches the
session call with `product.price` undefined; the processor rejects a
request whose unit amount is not an integer in minor units (modelled from
the spec, §6), so the throw lands in the same catch and the handler
answers 500 with no session — as it does for the unreachable falsy-tier
read of `.price`. -/
def createCheckout (body : CheckoutBody) (freshOrderId sessionId : String)
    (stripeOk : Bool) : Option CreatedSession × Response :=
  if !requiredPresent body then
    (none, ⟨400, "Missing required fields"⟩)
  else
    let vibe := body.vibe.getD ""
    let tier := body.tier.getD ""
    let quantity := body.quantity.getD 0
    if (PRODUCTS tier).truthy = false then (none, ⟨400, "Invalid tier"⟩)
    else if (VIBES vibe).truthy = false then (none, ⟨400, "Invalid vibe"⟩)
    else
      match PRODUCTS tier with
      | .own product =>
        if !stripeOk then (none, ⟨500, "Failed to create checkout session"⟩)
        else
          (some
            { id := sessionId
              unit_amount := product.price
              quantity := quantity
              customer_email := body.customerEmail.getD ""
              metadata :=
                { orderId := freshOrderId
                  vibe := vibe
                  tier := tier
                  quantity := intToStringJS quantity
                  uploadId := body.uploadId.getD ""
                  customerName := body.customerName.getD ""
                  customerPhone := body.customerPhone.getD ""
                  shippingAddress := body.shippingAddress.getD ""
                  notes := body.notes.getD "" } },
           ⟨200, "sessionId and redirect url"⟩)
      | _ =>
        (none, ⟨500, "Failed to create checkout session"⟩)

/-! ## Webhook handling (server.js lines 187-236) -/

/-- The `data.object` of a checkout-session event (server.js lines 203-219):
session id, payment intent, customer email, amount total, metadata. -/
structure SessionObject where
  id : String
  payment_intent : String
  customer_email : String
  amount_total : Int
  metadata : SessionMetadata
deriving DecidableEq

/-- A Stripe event: its `type` selects handling (server.js line 202). -/
structure StripeEvent where
  type : String
  data : SessionObject
deriving DecidableEq

/-- Modelled from the spec (§6, external interfaces): the processor's
"checkout session completed" confirmation event echoes the session id, the
payment-intent id assigned at payment time, the customer email, the amount
total (unit amount times quantity), and the metadata map unchanged. -/
def completedEvent (cs : CreatedSession) (paymentIntent : String) : StripeEvent :=
  { type := "checkout.session.completed"
    data :=
      { id := cs.id
        payment_intent := paymentIntent
        customer_email := cs.customer_email
        amount_total := cs.unit_amount * cs.quantity
        metadata := cs.metadata } }

/-- An inbound webhook request: the structured event standing for the parse
of the raw payload, the raw payload text, and the `stripe-signature` header. -/
structure SignedEvent where
  event : StripeEvent
  raw : String
  sig : String
deriving DecidableEq

/-- Modelled from the spec (§4.3 step 1): a stand-in for the HMAC signature
that `stripe.webhooks.constructEvent` recomputes over the raw payload with
the shared endpoint secret. -/
def expectedSig (secret payload : String) : String := secret ++ ":" ++ payload

/-- Model of `stripe.webhooks.constructEvent` (server.js lines 192-196):
verify the signature header against the secret; on mismatch throw, modelled
as `Except.error` with the thrown message. -/
def constructEvent (secret : String) (se : SignedEvent) : Except String StripeEvent :=
  if se.sig == expectedSig secret se.raw then Except.ok se.event
  else Except.error "signature verification failed"

/-- The order record built from a completed session (server.js lines 206-223). -/
def orderOfSession (s : SessionObject) (now : String) : Order :=
  { id := s.metadata.orderId
    stripeSessionId := s.id
    stripePaymentIntent := s.payment_intent
    vibe := s.metadata.vibe
    tier := s.metadata.tier
    quantity := parseIntJS s.metadata.quantity
    uploadId := s.metadata.uploadId
    customerName := s.metadata.customerName
    customerEmail := s.customer_email
    customerPhone := s.metadata.customerPhone
    shippingAddress := s.metadata.shippingAddress
    notes := s.metadata.notes
    amount := s.amount_total
    status := some "pending"
    createdAt := now
    updatedAt := now }

/-- `sendOrderConfirmation` (server.js lines 300-337): building the template
reads `PRODUCTS[order.tier].name` (line 302), which throws only when the
lookup is `undefined` (an inherited prototype member is a function and has
a `name`); only the `transporter.sendMail` call is inside the try, so a
transport failure is caught while a template failure propagates. -/
def sendOrderConfirmation (mailOk : Bool) (order : Order) : Except String (List Email) :=
  match PRODUCTS order.tier with
  | .undefined => Except.error "TypeError: cannot read name of undefined"
  | _ => Except.ok [Email.orderConfirmation order mailOk]

/-- `sendInternalNotification` (server.js lines 339-381): same shape, the
template also reads `PRODUCTS[order.tier].name` (line 341). -/
def sendInternalNotification (mailOk : Bool) (order : Order) : Except String (List Email) :=
  match PRODUCTS order.tier with
  | .undefined => Except.error "TypeError: cannot read name of undefined"
  | _ => Except.ok [Email.internalNotification order mailOk]

/-- `sendStatusUpdate` (server.js lines 383-418): the template reads
`order.status.toUpperCase()` (line 402), which throws when the status is
`undefined`; the transport failure itself is caught (lines 413-417). -/
def sendStatusUpdate (mailOk : Bool) (order : Order) : Except String (List Email) :=
  match order.status with
  | none => Except.error "TypeError: cannot read toUpperCase of undefined"
  | some _ => Except.ok [Email.statusUpdate order mailOk]

/-- The body of the `POST /api/webhook` handler after successful signature
verification (server.js lines 202-235): a `checkout.session.completed` event
unconditionally appends a new order and sends the two creation emails (a
template throw escapes the handler, modelled as a 500 after the append);
every other event type is acknowledged untouched. -/
def webhookProcess (event : StripeEvent) (db : DB) (now : String) (mailOk : Bool) :
    DB × Response × List Email :=
  if event.type == "checkout.session.completed" then
    let order := orderOfSession event.data now
    let db1 : DB := { db with orders := db.orders ++ [order] }
    match sendOrderConfirmation mailOk order with
    | Except.error e => (db1, ⟨500, e⟩, [])
    | Except.ok e1 =>
      match sendInternalNotification mailOk order with
      | Except.error e => (db1, ⟨500, e⟩, e1)
      | Except.ok e2 => (db1, ⟨200, "received: true"⟩, e1 ++ e2)
  else (db, ⟨200, "received: true"⟩, [])

/-- The full `POST /api/webhook` handler (server.js lines 187-236):
signature verification first; a failure is answered with 400 and the thrown
message, before any state is read or written. -/
def webhookHandler (secret : String) (se : SignedEvent) (db : DB) (now : String)
    (mailOk : Bool) : DB × Response × List Email :=
  match constructEvent secret se with
  | Except.error msg => (db, ⟨400, "Webhook Error: " ++ msg⟩, [])
  | Except.ok event => webhookProcess event db now mailOk

/-! ## Admin status update (server.js lines 276-297) -/

/-- Replace the first order with the given id, mirroring that the JS handler
mutates the object found by `find` in place inside the array. -/
def setFirst (orders : List Order) (orderId : String) (f : Order → Order) : List Order :=
  match orders with
  | [] => []
  | o :: rest => if o.id == orderId then f o :: rest else o :: setFirst rest orderId f

/-- The in-place mutation of server.js lines 285-286: overwrite `status`
with the request body's value verbatim and refresh `updatedAt`. -/
def setStatus (bodyStatus : Option String) (now : String) (o : Order) : Order :=
  { o with status := bodyStatus, updatedAt := now }

/-- The `PATCH /api/admin/orders/:orderId` handler (server.js lines 276-297):
look up the order by id (404 if absent), overwrite its status with
`req.body.status` verbatim and refresh `updatedAt`, persist, then attempt the
status email; a throw from the email template lands in the catch (500) after
the store was already written. -/
def updateOrderStatus (db : DB) (orderId : String) (bodyStatus : Option String)
    (now : String) (mailOk : Bool) : DB × Response × List Email :=
  match db.orders.find? (fun o => o.id == orderId) with
  | none => (db, ⟨404, "Order not found"⟩, [])
  | some order =>
    let order1 := setStatus bodyStatus now order
    let db1 : DB := { db with orders := setFirst db.orders orderId (setStatus bodyStatus now) }
    match sendStatusUpdate mailOk order1 with
    | Except.error _ => (db1, ⟨500, "Failed to update order"⟩, [])
    | Except.ok emails => (db1, ⟨200, "success: true"⟩, emails)

/-! ## Demonstration inputs used by concrete witnesses -/

/-- A well-formed checkout request: print tier, quantity 2. -/
def demoBody : CheckoutBody :=
  { vibe := some "homeAlone", tier := some "print", quantity := some 2,
    uploadId := some "up-1", customerName := some "Alice Smith",
    customerEmail := some "alice@example.com", customerPhone := none,
    shippingAddress := some "1 Main St", notes := some "" }

/-- The session `createCheckout demoBody "order-1" "cs_1" true` opens. -/
def demoSession : CreatedSession :=
  { id := "cs_1", unit_amount := 18900, quantity := 2,
    customer_email := "alice@example.com",
    metadata :=
      { orderId := "order-1", vibe := "homeAlone", tier := "print",
        quantity := "2", uploadId := "up-1", customerName := "Alice Smith",
        customerPhone := "", shippingAddress := "1 Main St", notes := "" } }

/-- The confirmation event for `demoSession`, correctly signed. -/
def demoSigned : SignedEvent :=
  { event := completedEvent demoSession "pi_1", raw := "rawbody",
    sig := expectedSig "whsec" "rawbody" }
/-- The order the webhook materializes from `demoSigned`. -/
def demoOrder : Order := orderOfSession (completedEvent demoSession "pi_1").data "t1"

/-- A store already holding `demoOrder`. -/
def demoDb : DB := ⟨[demoOrder], []⟩

/-! ## Digit round-trip lemmas -/

theorem natToDigitCharsAux_congr : ∀ (fuel1 fuel2 n : Nat), n < fuel1 → n < fuel2 →
    natToDigitCharsAux fuel1 n = natToDigitCharsAux fuel2 n := by
  intro fuel1
  induction fuel1 with
  | zero => intro fuel2 n h1 _; omega
  | succ f ih =>
    intro fuel2 n h1 h2
    cases fuel2 with
    | zero => omega
    | succ f2 =>
      simp only [natToDigitCharsAux]
      split
      · rfl
      · rw [ih f2 (n / 10) (by omega) (by omega)]

/-- One-step unfolding of `natToDigitChars`. -/
theorem natToDigitChars_eq (n : Nat) : natToDigitChars n =
    if n < 10 then [Char.ofNat (48 + n)]
    else natToDigitChars (n / 10) ++ [Char.ofNat (48 + n % 10)] := by
  show natToDigitCharsAux (n + 1) n = _
  simp only [natToDigitCharsAux]
  split
  · rfl
  · rw [natToDigitCharsAux_congr n (n / 10 + 1) (n / 10) (by omega) (by omega)]
    rfl

theorem digitVal_ofNat (k : Nat) (h : k < 10) : digitVal (Char.ofNat (48 + k)) = k := by
  interval_cases k <;> decide

theorem isDigit_ofNat (k : Nat) (h : k < 10) : (Char.ofNat (48 + k)).isDigit = true := by
  interval_cases k <;> decide

theorem natToDigitChars_all_digit (n : Nat) :
    ∀ c ∈ natToDigitChars n, c.isDigit = true := by
  induction n using Nat.strong_induction_on with
  | _ n ih =>
    rw [natToDigitChars_eq]
    split
    · next h =>
      intro c hc
      rw [List.mem_singleton] at hc
      subst hc
      exact isDigit_ofNat n h
    · next h =>
      intro c hc
      rw [List.mem_append] at hc
      rcases hc with h1 | h2
      · exact ih (n / 10) (Nat.div_lt_self (by omega) (by omega)) c h1
      · rw [List.mem_singleton] at h2
        subst h2
        exact isDigit_ofNat (n % 10) (Nat.mod_lt _ (by omega))

theorem natToDigitChars_ne_nil (n : Nat) : natToDigitChars n ≠ [] := by
  rw [natToDigitChars_eq]
  split <;> simp

theorem foldl_natToDigitChars (n : Nat) :
    (natToDigitChars n).foldl (fun a c => a * 10 + digitVal c) 0 = n := by
  induction n using Nat.strong_induction_on with
  | _ n ih =>
    rw [natToDigitChars_eq]
    split
    · next h =>
      simp [digitVal_ofNat n h]
    · next h =>
      rw [List.foldl_append, ih (n / 10) (Nat.div_lt_self (by omega) (by omega))]
      simp [digitVal_ofNat (n % 10) (Nat.mod_lt _ (by omega))]
      omega

theorem takeWhile_all {p : Char → Bool} :
    ∀ (l : List Char), (∀ c ∈ l, p c = true) → l.takeWhile p = l
  | [], _ => rfl
  | c :: rest, h => by
    rw [List.takeWhile_cons, h c (List.mem_cons_self _ _)]
    simpa using takeWhile_all rest (fun x hx => h x (List.mem_cons_of_mem _ hx))

theorem parseLeadingDigits_natToDigitChars (n : Nat) :
    parseLeadingDigits (natToDigitChars n) = some n := by
  unfold parseLeadingDigits
  rw [takeWhile_all _ (natToDigitChars_all_digit n)]
  simp only [List.isEmpty_iff, natToDigitChars_ne_nil n, if_false,
    foldl_natToDigitChars n]

theorem isDigit_ne_dash {c : Char} (h : c.isDigit = true) : ¬(c = '-') := by
  rintro rfl
  exact absurd h (by decide)

theorem isDigit_ne_plus {c : Char} (h : c.isDigit = true) : ¬(c = '+') := by
  rintro rfl
  exact absurd h (by decide)

theorem parseIntJS_mk_natToDigitChars (n : Nat) :
    parseIntJS ⟨natToDigitChars n⟩ = some (n : Int) := by
  obtain ⟨c, rest, hcr⟩ : ∃ c rest, natToDigitChars n = c :: rest := by
    cases h : natToDigitChars n with
    | nil => exact absurd h (natToDigitChars_ne_nil n)
    | cons c rest => exact ⟨c, rest, rfl⟩
  have hd : c.isDigit = true :=
    natToDigitChars_all_digit n c (hcr ▸ List.mem_cons_self _ _)
  show (match (⟨natToDigitChars n⟩ : String).data with
    | [] => none
    | c :: rest =>
      if c = '-' then (parseLeadingDigits rest).map (fun n => -(Int.ofNat n))
      else if c = '+' then (parseLeadingDigits rest).map Int.ofNat
      else (parseLeadingDigits (c :: rest)).map Int.ofNat) = some (n : Int)
  rw [show (⟨natToDigitChars n⟩ : String).data = natToDigitChars n from rfl, hcr]
  simp only [if_neg (isDigit_ne_dash hd), if_neg (isDigit_ne_plus hd)]
  rw [← hcr, parseLeadingDigits_natToDigitChars]
  rfl

/-- `parseInt` recovers exactly the integer `toString` rendered: the
quantity survives the metadata round trip. -/
theorem parseIntJS_intToStringJS (q : Int) : parseIntJS (intToStringJS q) = some q := by
  unfold intToStringJS
  split
  · next h =>
    have hdata : ("-" ++ (⟨natToDigitChars q.natAbs⟩ : String)).data
        = '-' :: natToDigitChars q.natAbs := rfl
    show parseIntJS ("-" ++ (⟨natToDigitChars q.natAbs⟩ : String)) = some q
    unfold parseIntJS
    rw [hdata]
    simp only [parseLeadingDigits_natToDigitChars, Option.map_some', if_pos rfl]
    rw [show Int.ofNat q.natAbs = ((q.natAbs : Nat) : Int) from rfl,
      Int.ofNat_natAbs_of_nonpos (by omega), neg_neg]
    simp
  · next h =>
    rw [parseIntJS_mk_natToDigitChars]
    congr 1
    exact Int.natAbs_of_nonneg (by omega)

/-- C6 counterexample: `toString` is outside both configured sets, yet
neither lookup fails — each returns a truthy member inherited from
`Object.prototype` — and the handler does not reject such codes: a tier
`toString` passes validation (its failure is the later processor call, a
500, not "Invalid tier"), and a theme `toString` with a valid tier opens a
session outright. -/
theorem catalog_prototype_keys_do_not_fail :
    (PRODUCTS "toString").truthy = true ∧
    (VIBES "toString").truthy = true ∧
    (createCheckout { demoBody with tier := some "toString" } "o2" "s2" true).2 =
      ⟨500, "Failed to create checkout session"⟩ ∧
    (createCheckout { demoBody with vibe := some "toString" } "o3" "s3" true).1.isSome
      = true := by
  decide

/-- C6 amended: price, shipping-requirement and display-name lookups
succeed for every tier in \x7bdigital, print, framed\x7d and every theme in
\x7bhomeAlone, elf, vacation\x7d, with print priced 18900; a code outside
the configured set that is not an `Object.prototype` property name yields
`undefined` (the handler's rejection path); but the twelve
`Object.prototype` property names yield inherited truthy values which the
handlers' falsiness checks do not reject.  The lookups are pure functions
of their key. -/
theorem catalog_total_on_fixed_domain :
    PRODUCTS "digital" = .own ⟨7900, "Digital Only", false⟩ ∧
    PRODUCTS "print" = .own ⟨18900, "Fine-Art Print", true⟩ ∧
    PRODUCTS "framed" = .own ⟨39900, "Framed Edition", true⟩ ∧
    VIBES "homeAlone" = .own "Home Alone" ∧
    VIBES "elf" = .own "Elf" ∧
    VIBES "vacation" = .own "Christmas Vacation" ∧
    (∀ tier, tier ≠ "digital" → tier ≠ "print" → tier ≠ "framed" →
      tier ∉ objectPrototypeKeys → PRODUCTS tier = .undefined) ∧
    (∀ vibe, vibe ≠ "homeAlone" → vibe ≠ "elf" → vibe ≠ "vacation" →
      vibe ∉ objectPrototypeKeys → VIBES vibe = .undefined) ∧
    (∀ tier, tier ∈ objectPrototypeKeys → (PRODUCTS tier).truthy = true) ∧
    (∀ vibe, vibe ∈ objectPrototypeKeys → (VIBES vibe).truthy = true) := by
  refine ⟨rfl, rfl, rfl, rfl, rfl, rfl, ?_, ?_, ?_, ?_⟩
  · intro t h1 h2 h3 h4
    simp only [PRODUCTS, if_neg h1, if_neg h2, if_neg h3, if_neg h4]
  · intro v h1 h2 h3 h4
    simp only [VIBES, if_neg h1, if_neg h2, if_neg h3, if_neg h4]
  · intro t ht
    simp only [objectPrototypeKeys, List.mem_cons, List.not_mem_nil, or_false] at ht
    rcases ht with rfl|rfl|rfl|rfl|rfl|rfl|rfl|rfl|rfl|rfl|rfl|rfl <;> decide
  · intro v hv
    simp only [objectPrototypeKeys, List.mem_cons, List.not_mem_nil, or_false] at hv
    rcases hv with rfl|rfl|rfl|rfl|rfl|rfl|rfl|rfl|rfl|rfl|rfl|rfl <;> decide

/-- Witness for the amended C6 at concrete out-of-domain keys, on both the
undefined side and the inherited-prototype side. -/
theorem catalog_total_on_fixed_domain_witness :
    PRODUCTS "gold" = .undefined ∧ VIBES "grinch" = .undefined ∧
    (PRODUCTS "hasOwnProperty").truthy = true ∧ (VIBES "valueOf").truthy = true :=
  ⟨catalog_total_on_fixed_domain.2.2.2.2.2.2.1 "gold"
     (by decide) (by decide) (by decide) (by decide),
   catalog_total_on_fixed_domain.2.2.2.2.2.2.2.1 "grinch"
     (by decide) (by decide) (by decide) (by decide),
   catalog_total_on_fixed_domain.2.2.2.2.2.2.2.2.1 "hasOwnProperty" (by decide),
   catalog_total_on_fixed_domain.2.2.2.2.2.2.2.2.2 "valueOf" (by decide)⟩

/-- C5: the amount is computed as `price(tier) * quantity` in minor units;
for tier print (18900) and quantity 2 it is 37800, and the order
materialized from the corresponding completed-session event carries amount
37800 and status pending. -/
theorem checkout_amount_is_price_times_quantity :
    (∀ (tier : String) (p : Product) (q : Int),
      PRODUCTS tier = .own p → checkoutTotalAmount tier q = some (p.price * q)) ∧
    checkoutTotalAmount "print" 2 = some 37800 ∧
    ((createCheckout demoBody "order-1" "cs_1" true).1.map
      (fun cs => (orderOfSession (completedEvent cs "pi_1").data "t1").amount)) =
        some 37800 ∧
    ((createCheckout demoBody "order-1" "cs_1" true).1.map
      (fun cs => (orderOfSession (completedEvent cs "pi_1").data "t1").status)) =
        some (some "pending") := by
  refine ⟨?_, by decide, by decide, by decide⟩
  intro tier p q hp
  unfold checkoutTotalAmount
  rw [hp]

/-- Witness for C5's universally quantified part at a concrete tier. -/
theorem checkout_amount_is_price_times_quantity_witness :
    checkoutTotalAmount "framed" 3 = some 119700 :=
  checkout_amount_is_price_times_quantity.1 "framed" ⟨39900, "Framed Edition", true⟩ 3
    (by decide)

/-- C2: whenever the signature header does not verify against the shared
secret, the webhook answers 400 and mutates nothing: the store is returned
untouched and no email is attempted, whatever the payload contains. -/
theorem webhook_invalid_signature_rejected (secret : String) (se : SignedEvent)
    (db : DB) (now : String) (mailOk : Bool)
    (h : se.sig ≠ expectedSig secret se.raw) :
    webhookHandler secret se db now mailOk =
      (db, ⟨400, "Webhook Error: signature verification failed"⟩, []) := by
  unfold webhookHandler constructEvent
  rw [if_neg (by simpa using h)]
  rfl

/-- Witness for C2 at a concrete forged signature. -/
theorem webhook_invalid_signature_rejected_witness :
    webhookHandler "whsec"
      { event := completedEvent demoSession "pi_1", raw := "rawbody", sig := "forged" }
      ⟨[], []⟩ "t1" true =
      (⟨[], []⟩, ⟨400, "Webhook Error: signature verification failed"⟩, []) :=
  webhook_invalid_signature_rejected "whsec" _ ⟨[], []⟩ "t1" true (by decide)

/-- C9: a correctly signed event of any type other than
`checkout.session.completed` is acknowledged with 200 and neither creates
nor modifies any order, and attempts no email. -/
theorem webhook_ignores_other_event_types (secret : String) (se : SignedEvent)
    (db : DB) (now : String) (mailOk : Bool)
    (hsig : se.sig = expectedSig secret se.raw)
    (hty : se.event.type ≠ "checkout.session.completed") :
    webhookHandler secret se db now mailOk = (db, ⟨200, "received: true"⟩, []) := by
  unfold webhookHandler constructEvent
  rw [if_pos (by simpa using hsig)]
  show webhookProcess se.event db now mailOk = _
  unfold webhookProcess
  rw [if_neg (by simpa using hty)]

/-- Witness for C9 at a concrete signed `invoice.paid` event. -/
theorem webhook_ignores_other_event_types_witness :
    webhookHandler "whsec"
      { event := { type := "invoice.paid", data := (completedEvent demoSession "pi_1").data },
        raw := "rawbody", sig := expectedSig "whsec" "rawbody" }
      demoDb "t1" true = (demoDb, ⟨200, "received: true"⟩, []) :=
  webhook_ignores_other_event_types "whsec" _ demoDb "t1" true rfl (by decide)

/-- A verified `checkout.session.completed` event is processed by appending
the materialized order and attempting both creation emails; there is no
lookup of an existing order first (server.js lines 202-233). -/
theorem webhookProcess_completed (event : StripeEvent) (db : DB) (now : String)
    (mailOk : Bool) (p : Product)
    (hty : event.type = "checkout.session.completed")
    (hp : PRODUCTS event.data.metadata.tier = .own p) :
    webhookProcess event db now mailOk =
      ({ db with orders := db.orders ++ [orderOfSession event.data now] },
       ⟨200, "received: true"⟩,
       [Email.orderConfirmation (orderOfSession event.data now) mailOk,
        Email.internalNotification (orderOfSession event.data now) mailOk]) := by
  unfold webhookProcess sendOrderConfirmation sendInternalNotification
  rw [if_pos (by simpa using hty)]
  dsimp only
  have htier : (orderOfSession event.data now).tier = event.data.metadata.tier := rfl
  rw [htier, hp]
  rfl

/-- C1 amended: materialization is not idempotent — every delivery of a
correctly signed completed event whose tier is in the catalog appends a
fresh Order to the store, regardless of whether an Order with the same
session identifier is already present, and attempts a customer confirmation
each time; duplicate deliveries therefore accumulate duplicate Orders and
duplicate notifications. -/
theorem webhook_completed_event_always_appends (secret : String)
    (se : SignedEvent) (db : DB) (now : String) (mailOk : Bool) (p : Product)
    (hsig : se.sig = expectedSig secret se.raw)
    (hty : se.event.type = "checkout.session.completed")
    (hp : PRODUCTS se.event.data.metadata.tier = .own p) :
    webhookHandler secret se db now mailOk =
      ({ db with orders := db.orders ++ [orderOfSession se.event.data now] },
       ⟨200, "received: true"⟩,
       [Email.orderConfirmation (orderOfSession se.event.data now) mailOk,
        Email.internalNotification (orderOfSession se.event.data now) mailOk]) := by
  unfold webhookHandler constructEvent
  rw [if_pos (by simpa using hsig)]
  exact webhookProcess_completed se.event db now mailOk p hty hp

/-- Witness for the amended C1: delivered against a store that already holds
the very order this session materialized, the handler appends a second copy. -/
theorem webhook_completed_event_always_appends_witness :
    webhookHandler "whsec" demoSigned demoDb "t2" true =
      ({ demoDb with orders := demoDb.orders ++
          [orderOfSession demoSigned.event.data "t2"] },
       ⟨200, "received: true"⟩,
       [Email.orderConfirmation (orderOfSession demoSigned.event.data "t2") true,
        Email.internalNotification (orderOfSession demoSigned.event.data "t2") true]) :=
  webhook_completed_event_always_appends "whsec" demoSigned demoDb "t2" true
    ⟨18900, "Fine-Art Print", true⟩ rfl rfl (by decide)

/-- C1 counterexample: delivering the identical correctly signed completed
event twice leaves two Orders with the same payment-session identifier in
the store, and each delivery attempts a customer confirmation — refuting
"at most one Order per session id" and "no duplicate notification". -/
theorem webhook_duplicate_delivery_duplicates_order :
    ((webhookHandler "whsec" demoSigned
        (webhookHandler "whsec" demoSigned ⟨[], []⟩ "t1" true).1 "t2" true).1.orders.filter
      (fun o => o.stripeSessionId == "cs_1")).length = 2 ∧
    ((webhookHandler "whsec" demoSigned ⟨[], []⟩ "t1" true).2.2.filter
      Email.isCustomerConfirmation).length = 1 ∧
    ((webhookHandler "whsec" demoSigned
        (webhookHandler "whsec" demoSigned ⟨[], []⟩ "t1" true).1 "t2" true).2.2.filter
      Email.isCustomerConfirmation).length = 1 := by
  decide

/-- C4: `updateStatus` with an unknown order identifier answers 404 and
returns the store unchanged, attempting no email; with a known identifier
and a status value it overwrites that order's status, refreshes `updatedAt`,
answers success, and attempts exactly one status email carrying the updated
order. -/
theorem updateStatus_notfound_and_success (db : DB) (orderId now : String)
    (mailOk : Bool) :
    (db.orders.find? (fun o => o.id == orderId) = none →
      ∀ bodyStatus, updateOrderStatus db orderId bodyStatus now mailOk =
        (db, ⟨404, "Order not found"⟩, [])) ∧
    (∀ o s, db.orders.find? (fun o => o.id == orderId) = some o →
      updateOrderStatus db orderId (some s) now mailOk =
        ({ db with orders := setFirst db.orders orderId (setStatus (some s) now) },
         ⟨200, "success: true"⟩,
         [Email.statusUpdate (setStatus (some s) now o) mailOk])) := by
  constructor
  · intro h bodyStatus
    unfold updateOrderStatus
    rw [h]
  · intro o s h
    unfold updateOrderStatus
    rw [h]
    rfl

/-- Witness for C4: the 404 branch on an empty store and the success branch
on a store holding `demoOrder`. -/
theorem updateStatus_notfound_and_success_witness :
    updateOrderStatus ⟨[], []⟩ "missing" none "t2" true =
      (⟨[], []⟩, ⟨404, "Order not found"⟩, []) ∧
    updateOrderStatus demoDb "order-1" (some "shipped") "t2" true =
      ({ demoDb with orders := setFirst demoDb.orders "order-1" (setStatus (some "shipped") "t2") },
       ⟨200, "success: true"⟩,
       [Email.statusUpdate (setStatus (some "shipped") "t2" demoOrder) true]) :=
  ⟨(updateStatus_notfound_and_success ⟨[], []⟩ "missing" "t2" true).1 (by decide) none,
   (updateStatus_notfound_and_success demoDb "order-1" "t2" true).2 demoOrder "shipped"
     (by decide)⟩

/-- C10 counterexample: with the order present and the status value missing
from the request body, the operation does not succeed — it answers 500
(the notification template dereferences the absent status). -/
theorem updateStatus_missing_value_errors :
    (updateOrderStatus demoDb "order-1" none "t2" true).2.1 =
      ⟨500, "Failed to update order"⟩ := by
  decide

/-- C10 amended: the handler validates nothing about the status value: every
string, the seven documented labels or not, is stored verbatim with a
success response; a missing value is also stored verbatim (the order's
status becomes undefined, and the store is persisted), but the response is
then a 500 because building the notification dereferences the status. -/
theorem updateStatus_stores_any_string_verbatim (db : DB) (orderId now : String)
    (mailOk : Bool) (o : Order)
    (hfind : db.orders.find? (fun x => x.id == orderId) = some o) :
    (∀ s : String, updateOrderStatus db orderId (some s) now mailOk =
      ({ db with orders := setFirst db.orders orderId (setStatus (some s) now) },
       ⟨200, "success: true"⟩,
       [Email.statusUpdate (setStatus (some s) now o) mailOk])) ∧
    updateOrderStatus db orderId none now mailOk =
      ({ db with orders := setFirst db.orders orderId (setStatus none now) },
       ⟨500, "Failed to update order"⟩, []) := by
  constructor
  · intro s
    unfold updateOrderStatus
    rw [hfind]
    rfl
  · unfold updateOrderStatus
    rw [hfind]
    rfl

/-- Witness for the amended C10: a label far outside the documented enum is
stored verbatim, and the missing-status case at the same store. -/
theorem updateStatus_stores_any_string_verbatim_witness :
    updateOrderStatus demoDb "order-1" (some "totally_bogus") "t2" true =
      ({ demoDb with orders := setFirst demoDb.orders "order-1" (setStatus (some "totally_bogus") "t2") },
       ⟨200, "success: true"⟩,
       [Email.statusUpdate (setStatus (some "totally_bogus") "t2" demoOrder) true]) ∧
    updateOrderStatus demoDb "order-1" none "t2" true =
      ({ demoDb with orders := setFirst demoDb.orders "order-1" (setStatus none "t2") },
       ⟨500, "Failed to update order"⟩, []) :=
  ⟨(updateStatus_stores_any_string_verbatim demoDb "order-1" "t2" true demoOrder
      (by decide)).1 "totally_bogus",
   (updateStatus_stores_any_string_verbatim demoDb "order-1" "t2" true demoOrder
      (by decide)).2⟩

/-- C7 counterexample: quantity -1 is not a positive integer, yet validation
lets it through: the handler does not answer with a validation error, and a
payment session is opened. -/
theorem checkout_negative_quantity_accepted :
    (createCheckout { demoBody with quantity := some (-1) } "order-2" "cs_2" true).2.status
      = 200 ∧
    (createCheckout { demoBody with quantity := some (-1) } "order-2" "cs_2" true).1.isSome
      = true := by
  decide

/-- C7 amended: validation checks only truthiness of the six required
fields and falsiness of the tier and vibe lookups.  A missing or falsy
required field answers 400 "Missing required fields"; a tier (resp. vibe)
whose lookup is `undefined` — outside the catalog and not an
`Object.prototype` property name — answers 400 "Invalid tier" (resp.
"Invalid vibe"); each such failure opens no session.  Positivity (or
integrality) of the quantity is not checked, so any present nonzero
quantity passes; and a tier naming an `Object.prototype` property passes
the falsiness check, failing only later at the processor call (500), not
as a validation error. -/
theorem checkout_validation_behaviour (body : CheckoutBody)
    (freshOrderId sessionId : String) (stripeOk : Bool) :
    (requiredPresent body = false →
      createCheckout body freshOrderId sessionId stripeOk =
        (none, ⟨400, "Missing required fields"⟩)) ∧
    (requiredPresent body = true → PRODUCTS (body.tier.getD "") = .undefined →
      createCheckout body freshOrderId sessionId stripeOk =
        (none, ⟨400, "Invalid tier"⟩)) ∧
    (requiredPresent body = true →
      (PRODUCTS (body.tier.getD "")).truthy = true →
      VIBES (body.vibe.getD "") = .undefined →
      createCheckout body freshOrderId sessionId stripeOk =
        (none, ⟨400, "Invalid vibe"⟩)) ∧
    (requiredPresent body = true →
      PRODUCTS (body.tier.getD "") = .inherited →
      (VIBES (body.vibe.getD "")).truthy = true →
      createCheckout body freshOrderId sessionId stripeOk =
        (none, ⟨500, "Failed to create checkout session"⟩)) := by
  refine ⟨?_, ?_, ?_, ?_⟩
  · intro h
    unfold createCheckout
    rw [h]
    rfl
  · intro h hp
    unfold createCheckout
    rw [h]
    dsimp only
    rw [hp]
    rfl
  · intro h hpt hv
    unfold createCheckout
    rw [h]
    dsimp only
    rw [hpt, hv]
    rfl
  · intro h hp hvt
    unfold createCheckout
    rw [h]
    dsimp only
    rw [hp, hvt]
    rfl

/-- Witness for the amended C7 at concrete requests exercising each branch,
the prototype-named tier included. -/
theorem checkout_validation_behaviour_witness :
    createCheckout { demoBody with customerEmail := none } "o" "s" true =
      (none, ⟨400, "Missing required fields"⟩) ∧
    createCheckout { demoBody with tier := some "gold" } "o" "s" true =
      (none, ⟨400, "Invalid tier"⟩) ∧
    createCheckout { demoBody with vibe := some "grinch" } "o" "s" true =
      (none, ⟨400, "Invalid vibe"⟩) ∧
    createCheckout { demoBody with tier := some "constructor" } "o" "s" true =
      (none, ⟨500, "Failed to create checkout session"⟩) :=
  ⟨(checkout_validation_behaviour { demoBody with customerEmail := none } "o" "s" true).1
     (by decide),
   (checkout_validation_behaviour { demoBody with tier := some "gold" } "o" "s" true).2.1
     (by decide) (by decide),
   (checkout_validation_behaviour { demoBody with vibe := some "grinch" } "o" "s" true).2.2.1
     (by decide) (by decide) (by decide),
   (checkout_validation_behaviour { demoBody with tier := some "constructor" } "o" "s"
     true).2.2.2 (by decide) (by decide) (by decide)⟩

/-- C8: no notification outcome is ever fatal: the store and the HTTP
response of the webhook handler and of the status-update handler are
identical whether every email send succeeds or every email send fails — an
appended or updated order stays in the store even when all sends fail. -/
theorem notification_failure_never_fatal (secret : String) (se : SignedEvent)
    (db : DB) (now orderId : String) (bodyStatus : Option String) :
    ((webhookHandler secret se db now true).1 = (webhookHandler secret se db now false).1 ∧
     (webhookHandler secret se db now true).2.1 =
       (webhookHandler secret se db now false).2.1) ∧
    ((updateOrderStatus db orderId bodyStatus now true).1 =
       (updateOrderStatus db orderId bodyStatus now false).1 ∧
     (updateOrderStatus db orderId bodyStatus now true).2.1 =
       (updateOrderStatus db orderId bodyStatus now false).2.1) := by
  constructor
  · unfold webhookHandler
    cases constructEvent secret se with
    | error msg => exact ⟨rfl, rfl⟩
    | ok event =>
      unfold webhookProcess sendOrderConfirmation sendInternalNotification
      dsimp only
      cases event.type == "checkout.session.completed" with
      | false => exact ⟨rfl, rfl⟩
      | true =>
        cases PRODUCTS (orderOfSession event.data now).tier with
        | own p => exact ⟨rfl, rfl⟩
        | inherited => exact ⟨rfl, rfl⟩
        | undefined => exact ⟨rfl, rfl⟩
  · unfold updateOrderStatus sendStatusUpdate
    cases db.orders.find? (fun o => o.id == orderId) with
    | none => exact ⟨rfl, rfl⟩
    | some o =>
      dsimp only
      cases bodyStatus with
      | none => exact ⟨rfl, rfl⟩
      | some s => exact ⟨rfl, rfl⟩

/-- C3: the session metadata built by checkout initiation, fed back through
the webhook's order construction, reconstructs every intent field: theme,
tier, quantity, upload id, customer name, email, and the phone, address and
notes with a missing optional field coming back as the empty string. -/
theorem initiate_handleEvent_round_trip (body : CheckoutBody)
    (v t u nm em : String) (q : Int)
    (freshOrderId sessionId paymentIntent now : String)
    (cs : CreatedSession) (resp : Response)
    (hv : body.vibe = some v) (ht : body.tier = some t)
    (hq : body.quantity = some q)
    (hu : body.uploadId = some u) (hn : body.customerName = some nm)
    (he : body.customerEmail = some em)
    (hcs : createCheckout body freshOrderId sessionId true = (some cs, resp)) :
    (orderOfSession (completedEvent cs paymentIntent).data now).vibe = v ∧
    (orderOfSession (completedEvent cs paymentIntent).data now).tier = t ∧
    (orderOfSession (completedEvent cs paymentIntent).data now).quantity = some q ∧
    (orderOfSession (completedEvent cs paymentIntent).data now).uploadId = u ∧
    (orderOfSession (completedEvent cs paymentIntent).data now).customerName = nm ∧
    (orderOfSession (completedEvent cs paymentIntent).data now).customerEmail = em ∧
    (orderOfSession (completedEvent cs paymentIntent).data now).customerPhone =
      body.customerPhone.getD "" ∧
    (orderOfSession (completedEvent cs paymentIntent).data now).shippingAddress =
      body.shippingAddress.getD "" ∧
    (orderOfSession (completedEvent cs paymentIntent).data now).notes =
      body.notes.getD "" := by
  unfold createCheckout at hcs
  rw [hv, ht, hq, hu, hn, he] at hcs
  dsimp only at hcs
  split at hcs
  · exact absurd (congrArg Prod.fst hcs) (by simp)
  · split at hcs
    · exact absurd (congrArg Prod.fst hcs) (by simp)
    · split at hcs
      · exact absurd (congrArg Prod.fst hcs) (by simp)
      · split at hcs
        · rw [if_neg (by decide)] at hcs
          simp only [Prod.mk.injEq, Option.some.injEq] at hcs
          obtain ⟨hcs1, hcs2⟩ := hcs
          subst hcs1
          refine ⟨rfl, rfl, ?_, rfl, rfl, rfl, rfl, rfl, rfl⟩
          exact parseIntJS_intToStringJS q
        · exact absurd (congrArg Prod.fst hcs) (by simp)

/-- Witness for C3 at the concrete demo intent. -/
theorem initiate_handleEvent_round_trip_witness :
    (orderOfSession (completedEvent demoSession "pi_1").data "t1").vibe = "homeAlone" ∧
    (orderOfSession (completedEvent demoSession "pi_1").data "t1").tier = "print" ∧
    (orderOfSession (completedEvent demoSession "pi_1").data "t1").quantity = some 2 ∧
    (orderOfSession (completedEvent demoSession "pi_1").data "t1").uploadId = "up-1" ∧
    (orderOfSession (completedEvent demoSession "pi_1").data "t1").customerName =
      "Alice Smith" ∧
    (orderOfSession (completedEvent demoSession "pi_1").data "t1").customerEmail =
      "alice@example.com" ∧
    (orderOfSession (completedEvent demoSession "pi_1").data "t1").customerPhone =
      demoBody.customerPhone.getD "" ∧
    (orderOfSession (completedEvent demoSession "pi_1").data "t1").shippingAddress =
      demoBody.shippingAddress.getD "" ∧
    (orderOfSession (completedEvent demoSession "pi_1").data "t1").notes =
      demoBody.notes.getD "" :=
  initiate_handleEvent_round_trip demoBody "homeAlone" "print" "up-1" "Alice Smith"
    "alice@example.com" 2 "order-1" "cs_1" "pi_1" "t1" demoSession
    ⟨200, "sessionId and redirect url"⟩ rfl rfl rfl rfl rfl rfl (by decide)
